import Mathlib

/-!
Shallow embedding of the GOGREEN catalog class (Code/GOGREEN.py).

Modelling conventions:
  * a pandas DataFrame of galaxy rows is a `List Galaxy` (row order is the
    DataFrame row order; boolean-mask indexing `df[mask]` is `List.filter`);
  * float64 values are rationals; a NaN entry of a numeric column (a null
    `zspec`/`zphot`) is `none`, and any numpy comparison against NaN is
    `false`, matching IEEE semantics used by the masks in `getMembers`;
  * a criterion string passed to `DataFrame.query` is a row-wise boolean
    predicate `Galaxy → Bool`;
  * a Python call that raises on the empty selection (indexing `.values[0]`
    or `.iloc[0]` of an empty frame) is modelled by an `Option` result that
    is `none` exactly on the empty selection.
-/

namespace GOGREEN

/-- A row of the merged galaxy catalog: canonical photometric ID, cluster
name, spectroscopic redshift (nullable) and photometric redshift (nullable). -/
structure Galaxy where
  cPHOTID : Int
  cluster : String
  zspec : Option ℚ
  zphot : Option ℚ
  deriving DecidableEq, Repr

/-- A galaxy table: the rows of a DataFrame in order. -/
abbrev Table := List Galaxy

/-- A row of the clusters catalog (`Clusters.fits`): cluster name (whitespace
already stripped at load time) and best-estimate redshift. -/
structure ClusterRow where
  cluster : String
  Redshift : ℚ
  deriving DecidableEq, Repr

/-- The post-initialization catalog store of the `GOGREEN` class: the merged
catalog `self.catalog`, the clusters catalog `self._clustersCatalog`, and the
public `self.standardCriteria` list of query predicates. -/
structure Store where
  catalog : Table
  clustersCatalog : List ClusterRow
  standardCriteria : List (Galaxy → Bool)

/-- Spectroscopic membership mask of line 145:
`np.abs(zspec - clusterZ) < 0.02*(1 + zspec)`; a NaN (null) `zspec` compares
false. -/
def specZtest (zspec : Option ℚ) (clusterZ : ℚ) : Bool :=
  match zspec with
  | none => false
  | some z => decide (|z - clusterZ| < 2/100 * (1 + z))

/-- Photometric membership mask of line 148:
`np.abs(zphot - clusterZ) < 0.08*(1 + zphot)`; a NaN (null) `zphot` compares
false. -/
def photZtest (zphot : Option ℚ) (clusterZ : ℚ) : Bool :=
  match zphot with
  | none => false
  | some z => decide (|z - clusterZ| < 8/100 * (1 + z))

/-- `getClusterZ` (lines 122-131): select the clusters-catalog rows whose
`cluster` column equals `clusterName` and take `['Redshift'].values[0]`.
On an empty selection the Python code raises (IndexError); modelled `none`. -/
def getClusterZ (s : Store) (clusterName : String) : Option ℚ :=
  ((s.clustersCatalog.filter (fun r => r.cluster == clusterName)).head?).map
    (fun r => r.Redshift)

/-- `getClusterGalaxies` (lines 176-184):
`self.catalog[self.catalog['Cluster'] == clusterName]`. -/
def getClusterGalaxies (s : Store) (clusterName : String) : Table :=
  s.catalog.filter (fun g => g.cluster == clusterName)

/-- Local variable `specZgalaxies` of `getMembers` (line 146): the cluster
galaxies passing the spectroscopic mask. -/
def specZgalaxies (allClusterGalaxies : Table) (clusterZ : ℚ) : Table :=
  allClusterGalaxies.filter (fun g => specZtest g.zspec clusterZ)

/-- Local variable `photZgalaxies` of `getMembers` before the exclusion
(line 149): the cluster galaxies passing the photometric mask. -/
def photZcandidates (allClusterGalaxies : Table) (clusterZ : ℚ) : Table :=
  allClusterGalaxies.filter (fun g => photZtest g.zphot clusterZ)

/-- Local variable `photZgalaxies` of `getMembers` after line 151:
`photZgalaxies[~photZgalaxies['cPHOTID'].isin(specZgalaxies['cPHOTID'])]`. -/
def photZgalaxies (allClusterGalaxies : Table) (clusterZ : ℚ) : Table :=
  (photZcandidates allClusterGalaxies clusterZ).filter
    (fun g =>
      !(((specZgalaxies allClusterGalaxies clusterZ).map
          (fun g2 => g2.cPHOTID)).contains g.cPHOTID))

/-- `getMembers` (lines 133-155): look up the cluster redshift (raises,
modelled `none`, when the cluster is absent), restrict the catalog to the
cluster, build the spectroscopic and photometric selections, drop photometric
rows whose `cPHOTID` occurs among the spectroscopic rows, and append
(`specZgalaxies.append(photZgalaxies)`). -/
def getMembers (s : Store) (clusterName : String) : Option Table :=
  match getClusterZ s clusterName with
  | none => none
  | some clusterZ =>
      let allClusterGalaxies := getClusterGalaxies s clusterName
      some (specZgalaxies allClusterGalaxies clusterZ ++
            photZgalaxies allClusterGalaxies clusterZ)

/-- Sequential narrowing of a frame by a list of criteria: the loop
`for criteria in list: frame = frame.query(criteria)`. -/
def applyCriteria (frame : Table) (cs : List (Galaxy → Bool)) : Table :=
  cs.foldl (fun f c => f.filter c) frame

/-- `reduceDF` (lines 157-174): apply the ad hoc criteria when the argument
is not `None` (modelled `Option`), then the store's standard criteria when
`useStandards` is set. -/
def reduceDF (s : Store) (frame : Table)
    (additionalCriteria : Option (List (Galaxy → Bool)))
    (useStandards : Bool) : Table :=
  let frame1 :=
    match additionalCriteria with
    | none => frame
    | some cs => applyCriteria frame cs
  if useStandards then applyCriteria frame1 s.standardCriteria else frame1

/-- Extension extraction of `os.path.splitext(filePath)[1]` (posixpath):
the suffix of the final path component from its last dot, where leading dots
of the component never start an extension. -/
def fileExt (filePath : String) : String :=
  let base := ((filePath.data.reverse.takeWhile (fun c => c ≠ '/')).reverse)
  let trimmed := base.dropWhile (fun c => c = '.')
  if trimmed.contains '.' then
    String.mk ('.' :: ((trimmed.reverse.takeWhile (fun c => c ≠ '.')).reverse))
  else ""

/-- `generateDF` (lines 88-106): dispatch on the file extension; `.fits` and
`.dat` files are parsed by the respective readers (abstract here), any other
extension prints a warning and returns an empty DataFrame. -/
def generateDF (readFits readDat : String → Table) (filePath : String) :
    Table :=
  let fileType := fileExt filePath
  if fileType = ".fits" then readFits filePath
  else if fileType = ".dat" then readDat filePath
  else []

/-- Leading three decimal digits of a natural number: `int(str(n)[:3])`
(line 77); a number of fewer than three digits is returned whole. -/
def leadingDigits3 (n : ℕ) : ℕ :=
  if n < 1000 then n else leadingDigits3 (n / 10)
  termination_by n
  decreasing_by exact Nat.div_lt_self (by omega) (by omega)

/-- The remap offset of line 77: `int(str(tempCPHOTID)[:3])*int(1e6)`. -/
def idPref (tempCPHOTID : ℕ) : ℤ :=
  (leadingDigits3 tempCPHOTID : ℤ) * 1000000

/-- Line 75 of `init`: the sentinel canonical photometric ID
`self._photoCatalog[self._photoCatalog['Cluster'] == clusterName].iloc[0]['cPHOTID']`;
`.iloc[0]` on an empty selection raises (IndexError), modelled `none`. -/
def sentinelCPHOTID (photoCatalog : Table) (clusterName : String) :
    Option Int :=
  ((photoCatalog.filter (fun g => g.cluster == clusterName)).head?).map
    (fun g => g.cPHOTID)

/-- Line 80 of `init`: `matchedClusterDF.loc[:,'cPHOTID'] += idPrefix`,
applied to the renamed `PHOTCATID` column of the structural catalog. -/
def remapCPHOTIDs (ids : List Int) (offset : Int) : List Int :=
  ids.map (fun i => i + offset)

/-- `merge` (lines 108-120): `pd.merge(frame1, frame2, how='left', on=key)`.
Modelled generically: a left row is `(key, payload)`, a right row is
`(key, payload)`; each left row is paired with every matching right row, or
with `none` (null-filled right-hand columns) when no right row matches.
Unmatched right rows contribute nothing. -/
def leftJoin {α β : Type} (frame1 : List (Int × α)) (frame2 : List (Int × β)) :
    List (Int × α × Option β) :=
  frame1.flatMap (fun p =>
    match frame2.filter (fun q => q.1 == p.1) with
    | [] => [(p.1, p.2, none)]
    | ms => ms.map (fun q => (p.1, p.2, some q.2)))

/-- State-passing form of `getClusterGalaxies`: the method reads
`self.catalog` and returns a fresh boolean-indexed frame; no statement of its
body writes to `self` or to any argument, so the store passes through. -/
def getClusterGalaxiesSt (s : Store) (clusterName : String) :
    Table × Store :=
  (s.catalog.filter (fun g => g.cluster == clusterName), s)

/-- State-passing form of `getClusterZ`: reads `self._clustersCatalog` only. -/
def getClusterZSt (s : Store) (clusterName : String) : Option ℚ × Store :=
  (((s.clustersCatalog.filter (fun r => r.cluster == clusterName)).head?).map
     (fun r => r.Redshift), s)

/-- State-passing form of `getMembers`: every statement of the body binds a
local (`clusterZ`, `allClusterGalaxies`, `specZthreshold`, `specZgalaxies`,
`photZthreshold`, `photZgalaxies`, `memberGalaxies`) to a fresh frame or
array; the store is threaded through the two method calls and returned. -/
def getMembersSt (s : Store) (clusterName : String) :
    Option Table × Store :=
  let r1 := getClusterZSt s clusterName
  let r2 := getClusterGalaxiesSt r1.2 clusterName
  match r1.1 with
  | none => (none, r2.2)
  | some clusterZ =>
      let allClusterGalaxies := r2.1
      let specZ := allClusterGalaxies.filter (fun g => specZtest g.zspec clusterZ)
      let photZ := allClusterGalaxies.filter (fun g => photZtest g.zphot clusterZ)
      let photZ2 := photZ.filter
        (fun g => !((specZ.map (fun g2 => g2.cPHOTID)).contains g.cPHOTID))
      (some (specZ ++ photZ2), r2.2)

/-- State-passing form of `reduceDF`: the loop rebinds the local name
`frame` to the fresh frame returned by `DataFrame.query`; the caller's frame
object and the store are unchanged, so both are returned alongside the
result as the post-call state. -/
def reduceDFSt (s : Store) (frame : Table)
    (additionalCriteria : Option (List (Galaxy → Bool)))
    (useStandards : Bool) : Table × Table × Store :=
  let frame1 :=
    match additionalCriteria with
    | none => frame
    | some cs => applyCriteria frame cs
  let frame2 :=
    if useStandards then applyCriteria frame1 s.standardCriteria else frame1
  (frame2, frame, s)

/-- Concrete store for the membership-decomposition witness: one cluster at
redshift 0 with a spectroscopic member, a photometric-only member, and one
galaxy of another cluster. -/
def c1Store : Store :=
  { catalog := [⟨100000001, "A", some 0, some 0⟩,
                ⟨100000002, "A", none, some 0⟩,
                ⟨200000001, "B", some 0, some 0⟩],
    clustersCatalog := [⟨"A", 0⟩],
    standardCriteria := [] }

/-- Concrete store for the subset/disjointness witness. -/
def c2Store : Store :=
  { catalog := [⟨100000001, "A", some 0, some 0⟩,
                ⟨100000002, "A", none, some 0⟩],
    clustersCatalog := [⟨"A", 0⟩],
    standardCriteria := [] }

/-- The member table of cluster `A` in `c2Store`: the spectroscopic member
first, then the surviving photometric member. -/
def c2Members : Table :=
  [⟨100000001, "A", some 0, some 0⟩, ⟨100000002, "A", none, some 0⟩]

/-- Concrete store for the absent-cluster witness. -/
def c6Store : Store :=
  { catalog := [], clustersCatalog := [⟨"A", 0⟩], standardCriteria := [] }

/-- Concrete photometric catalog for the absent-cluster remap witness. -/
def c6Photo : Table := [⟨100000001, "A", some 0, some 0⟩]

/-- Concrete store for the failing-zspec witness: cluster `A` at redshift 0
and one galaxy whose `zspec = 9` fails the spectroscopic band while its
`zphot = 0` passes the photometric band. -/
def c9Store : Store :=
  { catalog := [⟨100000002, "A", some 9, some 0⟩],
    clustersCatalog := [⟨"A", 0⟩],
    standardCriteria := [] }

/-- The galaxy of `c9Store`: present-but-failing `zspec`, passing `zphot`. -/
def c9Galaxy : Galaxy := ⟨100000002, "A", some 9, some 0⟩

/-- Concrete left table for the join witness: two keyed rows. -/
def c4Left : List (Int × Int) := [(1, 10), (2, 20)]

/-- Concrete right table for the join witness: key-unique, matching only
key 1, so row 2 of the left table is null-filled. -/
def c4Right : List (Int × Int) := [(1, 100)]

/-- Concrete store for the filter-pipeline witness: empty standard list. -/
def c7Store : Store :=
  { catalog := [], clustersCatalog := [], standardCriteria := [] }

/-- Concrete two-row frame for the filter-pipeline witness. -/
def c7Frame : Table :=
  [⟨100000001, "A", some 0, some 0⟩, ⟨100000002, "A", none, some 0⟩]

/-- Any row surviving a chain of criteria filters was a row of the input. -/
lemma mem_of_mem_applyCriteria {g : Galaxy} {cs : List (Galaxy → Bool)}
    {t : Table} (h : g ∈ applyCriteria t cs) : g ∈ t := by
  induction cs generalizing t with
  | nil => exact h
  | cons c cs ih => exact List.mem_of_mem_filter (ih h)

/-- Applying the same chain of row-wise criteria twice narrows exactly as
applying it once. -/
lemma applyCriteria_idem (cs : List (Galaxy → Bool)) (t : Table) :
    applyCriteria (applyCriteria t cs) cs = applyCriteria t cs := by
  induction cs generalizing t with
  | nil => rfl
  | cons c cs ih =>
    show applyCriteria ((applyCriteria (t.filter c) cs).filter c) cs =
      applyCriteria (t.filter c) cs
    have hfix : (applyCriteria (t.filter c) cs).filter c =
        applyCriteria (t.filter c) cs :=
      List.filter_eq_self.mpr
        (fun a ha => List.of_mem_filter (mem_of_mem_applyCriteria ha))
    rw [hfix, ih]

/-- C3: identifier remapping is a round trip: with
`idPrefix = (leading 3 digits of the sentinel cPHOTID) * 10^6`, subtracting
the same `idPrefix` from every remapped canonical ID recovers the original
local IDs; in particular local ID 7 under sentinel canonical ID 100000042
remaps to canonical ID 100000007. -/
theorem remapCPHOTIDs_round_trip (sentinel : ℕ) (ids : List Int)
    (hsentinel : 100 ≤ sentinel) :
    (remapCPHOTIDs ids (idPref sentinel)).map
        (fun i => i - idPref sentinel) = ids ∧
    remapCPHOTIDs [7] (idPref 100000042) = [100000007] := by
  constructor
  · rw [remapCPHOTIDs, List.map_map]
    have hcomp : ((fun i => i - idPref sentinel) ∘
        fun i => i + idPref sentinel) = id := by
      funext i
      simp
    rw [hcomp, List.map_id]
  · have h42 : leadingDigits3 100000042 = 100 := by
      rw [leadingDigits3]; norm_num
      rw [leadingDigits3]; norm_num
      rw [leadingDigits3]; norm_num
      rw [leadingDigits3]; norm_num
      rw [leadingDigits3]; norm_num
      rw [leadingDigits3]; norm_num
      rw [leadingDigits3]; norm_num
    simp [remapCPHOTIDs, idPref, h42]

/-- C3 witness: the round trip evaluated at sentinel 100000042 and local
IDs `[7, 12345]`, together with the concrete remap scenario. -/
theorem remapCPHOTIDs_round_trip_witness :
    100 ≤ 100000042 ∧
    ((remapCPHOTIDs [7, 12345] (idPref 100000042)).map
        (fun i => i - idPref 100000042) = [7, 12345] ∧
      remapCPHOTIDs [7] (idPref 100000042) = [100000007]) :=
  ⟨by norm_num, remapCPHOTIDs_round_trip 100000042 [7, 12345] (by norm_num)⟩

/-- C5: the code contradicts the claim here: for a path with the unsupported
extension `.csv`, `generateDF` prints a warning and returns an empty table
instead of failing; in general every extension other than `.fits` and `.dat`
yields the empty table. -/
theorem generateDF_unsupported_returns_empty
    (readFits readDat : String → Table) :
    fileExt "DR1/CATS/Clusters.csv" = ".csv" ∧
    generateDF readFits readDat "DR1/CATS/Clusters.csv" = [] := by
  constructor
  · rfl
  · rfl

/-- C7: with no ad hoc criteria and standard criteria enabled, `reduceDF` is
idempotent, and empty predicate lists are no-ops: with an empty ad hoc list
and `useStandards = false` the frame is returned unchanged, and likewise when
the standard list is also empty. -/
theorem reduceDF_standard_idem (s : Store) (t : Table) :
    reduceDF s (reduceDF s t (some []) true) (some []) true =
      reduceDF s t (some []) true ∧
    reduceDF s t (some []) false = t ∧
    (s.standardCriteria = [] → reduceDF s t (some []) true = t) := by
  refine ⟨?_, rfl, ?_⟩
  · show applyCriteria (applyCriteria t s.standardCriteria)
        s.standardCriteria = applyCriteria t s.standardCriteria
    exact applyCriteria_idem s.standardCriteria t
  · intro h
    show applyCriteria t s.standardCriteria = t
    rw [h]
    rfl

/-- C7 witness: the idempotence and no-op laws evaluated on a concrete
store with an empty standard-criteria list and a two-row table. -/
theorem reduceDF_standard_idem_witness :
    c7Store.standardCriteria = [] ∧
    reduceDF c7Store (reduceDF c7Store c7Frame (some []) true)
        (some []) true = reduceDF c7Store c7Frame (some []) true ∧
    reduceDF c7Store c7Frame (some []) false = c7Frame ∧
    reduceDF c7Store c7Frame (some []) true = c7Frame :=
  ⟨rfl, (reduceDF_standard_idem c7Store c7Frame).1,
    (reduceDF_standard_idem c7Store c7Frame).2.1,
    (reduceDF_standard_idem c7Store c7Frame).2.2 rfl⟩

/-- Inversion for `getMembers`: a successful call found the cluster redshift
and returned the spectroscopic selection followed by the surviving
photometric selection. -/
lemma getMembers_some {s : Store} {clusterName : String} {t : Table}
    (h : getMembers s clusterName = some t) :
    ∃ clusterZ, getClusterZ s clusterName = some clusterZ ∧
      t = specZgalaxies (getClusterGalaxies s clusterName) clusterZ ++
          photZgalaxies (getClusterGalaxies s clusterName) clusterZ := by
  cases hz : getClusterZ s clusterName with
  | none => simp [getMembers, hz] at h
  | some clusterZ =>
    refine ⟨clusterZ, rfl, ?_⟩
    simp [getMembers, hz] at h
    exact h.symm

/-- C1: when the cluster redshift is found, `getMembers` returns exactly the
cluster galaxies passing the spectroscopic band, followed by the cluster
galaxies passing the photometric band whose `cPHOTID` does not occur among
the spectroscopic members. -/
theorem getMembers_decomposition (s : Store) (clusterName : String)
    (clusterZ : ℚ) (h : getClusterZ s clusterName = some clusterZ) :
    getMembers s clusterName = some (
      (getClusterGalaxies s clusterName).filter
        (fun g => specZtest g.zspec clusterZ) ++
      ((getClusterGalaxies s clusterName).filter
        (fun g => photZtest g.zphot clusterZ)).filter
        (fun g =>
          !((((getClusterGalaxies s clusterName).filter
                (fun g2 => specZtest g2.zspec clusterZ)).map
              (fun g2 => g2.cPHOTID)).contains g.cPHOTID))) := by
  unfold getMembers
  rw [h]
  rfl

/-- C1 witness: the decomposition evaluated on a concrete store whose
cluster `A` has a spectroscopic member and a photometric-only member. -/
theorem getMembers_decomposition_witness :
    getClusterZ c1Store "A" = some 0 ∧
    getMembers c1Store "A" = some (
      (getClusterGalaxies c1Store "A").filter
        (fun g => specZtest g.zspec 0) ++
      ((getClusterGalaxies c1Store "A").filter
        (fun g => photZtest g.zphot 0)).filter
        (fun g =>
          !((((getClusterGalaxies c1Store "A").filter
                (fun g2 => specZtest g2.zspec 0)).map
              (fun g2 => g2.cPHOTID)).contains g.cPHOTID))) :=
  ⟨rfl, getMembers_decomposition c1Store "A" 0 rfl⟩

/-- C2: every row of a successful `getMembers` result is a row of
`getClusterGalaxies`, and the spectroscopic and surviving photometric
selections share no `cPHOTID`. -/
theorem getMembers_subset_disjoint (s : Store) (clusterName : String)
    (t : Table) (h : getMembers s clusterName = some t) :
    (∀ g ∈ t, g ∈ getClusterGalaxies s clusterName) ∧
    (∀ clusterZ : ℚ,
      ∀ a ∈ specZgalaxies (getClusterGalaxies s clusterName) clusterZ,
      ∀ b ∈ photZgalaxies (getClusterGalaxies s clusterName) clusterZ,
        a.cPHOTID ≠ b.cPHOTID) := by
  constructor
  · intro g hg
    obtain ⟨clusterZ, _, ht⟩ := getMembers_some h
    rw [ht] at hg
    rcases List.mem_append.mp hg with hg1 | hg2
    · exact List.mem_of_mem_filter hg1
    · exact List.mem_of_mem_filter (List.mem_of_mem_filter hg2)
  · intro clusterZ a ha b hb heq
    have hbn := List.of_mem_filter hb
    have ham : a.cPHOTID ∈
        (specZgalaxies (getClusterGalaxies s clusterName) clusterZ).map
          (fun g2 => g2.cPHOTID) :=
      List.mem_map_of_mem (fun g2 => g2.cPHOTID) ha
    rw [heq] at ham
    rw [Bool.not_eq_true', ← Bool.not_eq_true, List.elem_iff] at hbn
    exact hbn ham

/-- C2 witness: subset and disjointness evaluated on a concrete two-galaxy
store. -/
theorem getMembers_subset_disjoint_witness :
    getMembers c2Store "A" = some c2Members ∧
    (⟨100000001, "A", some 0, some 0⟩ : Galaxy) ∈
      getClusterGalaxies c2Store "A" := by
  have habs : |(0 : ℚ) - 0| < 2/100 * (1 + 0) := by
    rw [sub_self, abs_zero]
    norm_num
  have habs8 : |(0 : ℚ) - 0| < 8/100 * (1 + 0) := by
    rw [sub_self, abs_zero]
    norm_num
  have h : getMembers c2Store "A" = some c2Members := by
    simp [getMembers, getClusterZ, getClusterGalaxies, specZgalaxies,
      photZgalaxies, photZcandidates, specZtest, photZtest, c2Store,
      c2Members, List.filter, habs, habs8]
  exact ⟨h, (getMembers_subset_disjoint c2Store "A" c2Members h).1
    ⟨100000001, "A", some 0, some 0⟩ (by simp [c2Members, List.mem_cons])⟩

/-- C6: when no clusters-catalog row carries the requested name the redshift
lookup fails (the Python code raises on the empty selection), and when no
photometric-catalog row carries the cluster name the sentinel lookup of the
remapper fails likewise. -/
theorem absent_cluster_fails (s : Store) (clusterName : String)
    (photoCatalog : Table) :
    ((∀ r ∈ s.clustersCatalog, r.cluster ≠ clusterName) →
      getClusterZ s clusterName = none) ∧
    ((∀ g ∈ photoCatalog, g.cluster ≠ clusterName) →
      sentinelCPHOTID photoCatalog clusterName = none) := by
  constructor
  · intro h
    have hfilter : s.clustersCatalog.filter
        (fun r => r.cluster == clusterName) = [] := by
      rw [List.filter_eq_nil_iff]
      intro r hr
      simpa using h r hr
    simp [getClusterZ, hfilter]
  · intro h
    have hfilter : photoCatalog.filter
        (fun g => g.cluster == clusterName) = [] := by
      rw [List.filter_eq_nil_iff]
      intro g hg
      simpa using h g hg
    simp [sentinelCPHOTID, hfilter]

/-- C6 witness: both lookups fail on the name `Nope`, absent from a concrete
clusters catalog and a concrete photometric catalog. -/
theorem absent_cluster_fails_witness :
    getClusterZ c6Store "Nope" = none ∧
    sentinelCPHOTID c6Photo "Nope" = none :=
  ⟨(absent_cluster_fails c6Store "Nope" c6Photo).1
      (by intro r hr; simp [c6Store] at hr; simp [hr]),
   (absent_cluster_fails c6Store "Nope" c6Photo).2
      (by intro g hg; simp [c6Photo] at hg; simp [hg])⟩

/-- C9: a galaxy with a present but failing `zspec` whose `zphot` passes the
photometric band is returned by `getMembers` as a photometric member,
provided no galaxy passing the spectroscopic band carries its `cPHOTID`:
the exclusion of line 151 removes only `cPHOTID`s of spectroscopic passers,
not every galaxy possessing a `zspec`. -/
theorem failing_zspec_still_phot_member (s : Store) (clusterName : String)
    (clusterZ : ℚ) (g : Galaxy)
    (hz : getClusterZ s clusterName = some clusterZ)
    (hmem : g ∈ getClusterGalaxies s clusterName)
    (hpresent : g.zspec ≠ none)
    (hfail : specZtest g.zspec clusterZ = false)
    (hpass : photZtest g.zphot clusterZ = true)
    (hid : ∀ g2 ∈ getClusterGalaxies s clusterName,
      specZtest g2.zspec clusterZ = true → g2.cPHOTID ≠ g.cPHOTID) :
    g ∈ (getMembers s clusterName).getD [] := by
  have hm := getMembers_decomposition s clusterName clusterZ hz
  rw [hm, Option.getD_some]
  apply List.mem_append_right
  apply List.mem_filter.mpr
  refine ⟨List.mem_filter.mpr ⟨hmem, hpass⟩, ?_⟩
  rw [Bool.not_eq_true', ← Bool.not_eq_true, List.elem_iff]
  intro hcon
  obtain ⟨g2, hg2, hg2id⟩ := List.mem_map.mp hcon
  have hg2mem := List.mem_of_mem_filter hg2
  have hg2pass := List.of_mem_filter hg2
  exact hid g2 hg2mem hg2pass hg2id

/-- C9 witness: the galaxy of `c9Store` (zspec 9 fails the band around
cluster redshift 0, zphot 0 passes) is returned among the members. -/
theorem failing_zspec_still_phot_member_witness :
    c9Galaxy ∈ (getMembers c9Store "A").getD [] := by
  have hfail : specZtest c9Galaxy.zspec 0 = false := by
    simp only [c9Galaxy, specZtest, decide_eq_false_iff_not]
    intro hlt
    rw [show (9 : ℚ) - 0 = 9 by ring] at hlt
    rw [abs_of_pos (by norm_num)] at hlt
    norm_num at hlt
  have hpass : photZtest c9Galaxy.zphot 0 = true := by
    simp only [c9Galaxy, photZtest, decide_eq_true_eq]
    rw [sub_self, abs_zero]
    norm_num
  exact failing_zspec_still_phot_member c9Store "A" 0 c9Galaxy rfl
    (by simp [c9Store, getClusterGalaxies, c9Galaxy])
    (by simp [c9Galaxy])
    hfail hpass
    (by
      intro g2 hg2 hg2pass
      simp [c9Store, getClusterGalaxies] at hg2
      rw [hg2] at hg2pass
      rw [show (⟨100000002, "A", some 9, some 0⟩ : Galaxy) = c9Galaxy from rfl]
        at hg2pass
      rw [hfail] at hg2pass
      cases hg2pass)

/-- C10: passing `None` as the ad hoc criteria list behaves exactly like
passing an empty list, for either setting of `useStandards`. -/
theorem reduceDF_none_eq_empty_adhoc (s : Store) (t : Table) (b : Bool) :
    reduceDF s t none b = reduceDF s t (some []) b := by
  cases b <;> rfl

/-- With a key-unique right table, selecting the rows matching a key yields
the result of `find?` on that key: at most one row. -/
lemma filter_key_of_nodup {β : Type} (r : List (Int × β)) (k : Int)
    (hr : (r.map Prod.fst).Nodup) :
    r.filter (fun q => q.1 == k) = (r.find? (fun q => q.1 == k)).toList := by
  induction r with
  | nil => rfl
  | cons a r ih =>
    rw [List.map_cons, List.nodup_cons] at hr
    by_cases h : (a.1 == k) = true
    · have hnil : r.filter (fun q => q.1 == k) = [] := by
        rw [List.filter_eq_nil_iff]
        intro q hq hpq
        exact hr.1 (List.mem_map.mpr
          ⟨q, hq, by rw [eq_of_beq hpq, ← eq_of_beq h]⟩)
      simp [List.filter_cons, List.find?_cons, h, hnil]
    · simp [List.filter_cons, List.find?_cons, h, ih hr.2]

/-- Under a key-unique right table, the join of a nonempty left table pairs
its head with the unique matching right row (or `none`) and recurses. -/
lemma leftJoin_cons {α β : Type} (p : Int × α) (l : List (Int × α))
    (r : List (Int × β)) (hr : (r.map Prod.fst).Nodup) :
    leftJoin (p :: l) r =
      (p.1, p.2, (r.find? (fun q => q.1 == p.1)).map Prod.snd) ::
        leftJoin l r := by
  show (match r.filter (fun q => q.1 == p.1) with
      | [] => [(p.1, p.2, none)]
      | ms => ms.map (fun q => (p.1, p.2, some q.2))) ++ leftJoin l r = _
  rw [filter_key_of_nodup r p.1 hr]
  cases hfind : r.find? (fun q => q.1 == p.1) with
  | none => simp
  | some q => simp

/-- C4: when the right table has no duplicate keys, `merge` (pandas left
outer join) keeps every left row exactly once and in order, preserves the
left cardinality, and attaches to each row the unique matching right payload
or `none` (null-filled columns) when no right row matches; unmatched right
rows contribute nothing. -/
theorem merge_left_outer {α β : Type} (l : List (Int × α))
    (r : List (Int × β)) (hr : (r.map Prod.fst).Nodup) :
    (leftJoin l r).map (fun x => (x.1, x.2.1)) = l ∧
    (leftJoin l r).length = l.length ∧
    (∀ x ∈ leftJoin l r,
      x.2.2 = (r.find? (fun q => q.1 == x.1)).map Prod.snd) := by
  induction l with
  | nil =>
    refine ⟨rfl, rfl, ?_⟩
    intro x hx
    cases hx
  | cons p l ih =>
    obtain ⟨ih1, ih2, ih3⟩ := ih
    rw [leftJoin_cons p l r hr]
    refine ⟨?_, ?_, ?_⟩
    · simp [ih1]
    · simp [ih2]
    · intro x hx
      rcases List.mem_cons.mp hx with hx1 | hx2
      · rw [hx1]
      · exact ih3 x hx2

/-- C4 witness: the left-join laws evaluated on a concrete two-row left
table and a key-unique one-row right table. -/
theorem merge_left_outer_witness :
    (leftJoin c4Left c4Right).map (fun x => (x.1, x.2.1)) = c4Left ∧
    (leftJoin c4Left c4Right).length = c4Left.length ∧
    (∀ x ∈ leftJoin c4Left c4Right,
      x.2.2 = (c4Right.find? (fun q => q.1 == x.1)).map Prod.snd) :=
  merge_left_outer c4Left c4Right (by decide)

/-- C8: the façade queries are deterministic and side-effect-free: each
state-passing form returns its pure value together with the unchanged store
(and, for `reduceDF`, the unchanged input frame), and a repeated call on the
post-call state returns the same result. -/
theorem queries_deterministic_pure (s : Store) (clusterName : String)
    (frame : Table) (additionalCriteria : Option (List (Galaxy → Bool)))
    (useStandards : Bool) :
    getClusterZSt s clusterName = (getClusterZ s clusterName, s) ∧
    getClusterGalaxiesSt s clusterName =
      (getClusterGalaxies s clusterName, s) ∧
    getMembersSt s clusterName = (getMembers s clusterName, s) ∧
    reduceDFSt s frame additionalCriteria useStandards =
      (reduceDF s frame additionalCriteria useStandards, frame, s) ∧
    (getMembersSt (getMembersSt s clusterName).2 clusterName).1 =
      (getMembersSt s clusterName).1 ∧
    (reduceDFSt (reduceDFSt s frame additionalCriteria useStandards).2.2
        (reduceDFSt s frame additionalCriteria useStandards).2.1
        additionalCriteria useStandards).1 =
      (reduceDFSt s frame additionalCriteria useStandards).1 := by
  have h3 : getMembersSt s clusterName = (getMembers s clusterName, s) := by
    unfold getMembersSt getMembers getClusterZSt getClusterGalaxiesSt
      getClusterZ getClusterGalaxies specZgalaxies photZgalaxies
      photZcandidates
    cases ((s.clustersCatalog.filter
        (fun r => r.cluster == clusterName)).head?).map
        (fun r => r.Redshift) <;> rfl
  have h4 : reduceDFSt s frame additionalCriteria useStandards =
      (reduceDF s frame additionalCriteria useStandards, frame, s) := rfl
  refine ⟨rfl, rfl, h3, h4, ?_, ?_⟩
  · rw [h3]
    rw [h3]
  · rw [h4]
    show (reduceDFSt s frame additionalCriteria useStandards).1 =
      reduceDF s frame additionalCriteria useStandards
    rw [h4]

end GOGREEN
